import Mathlib

/-!
Verification of the Onion-Hoster service lifecycle orchestrator
(`src/core/onion_service.py`, `src/core/config_manager.py`,
`src/cli/cli_interface.py`, `src/gui/gui_app.py`) against its
natural-language specification.

The Python code is shallowly embedded: pure helpers become Lean functions
on `String`/`List Char`; external subprocess invocations are driven by an
oracle list of `CmdResult`s consumed in order, with a log of the issued
command strings; the mutable configuration becomes an explicit record
threaded through the functions.
-/

namespace OnionHoster

/-! ## String utilities mirroring the Python primitives used by the code -/

/-- Python's `needle in hay` on character lists: `needle` occurs as a
contiguous subsequence of `hay`. -/
def containsSeq (needle : List Char) : List Char → Bool
  | [] => needle.isPrefixOf []
  | c :: t => needle.isPrefixOf (c :: t) || containsSeq needle t

/-- Python's `needle in hay` on strings. -/
def pyIn (needle hay : String) : Bool :=
  containsSeq needle.data hay.data

/-- Characters removed by Python's `str.strip()`. -/
def pyWhitespace (c : Char) : Bool :=
  c == ' ' || c == '\t' || c == '\n' || c == '\r' || c == '\x0b' || c == '\x0c'

/-- Python's `str.strip()`. -/
def pyStrip (s : String) : String :=
  String.mk (((s.data.dropWhile pyWhitespace).reverse.dropWhile pyWhitespace).reverse)

/-- Python's `str.lower()` (ASCII view, sufficient for the monitored text). -/
def pyLower (s : String) : String :=
  String.mk (s.data.map Char.toLower)

/-- Value of a run of decimal digits, as `int()` computes it. -/
def digitsToNat (ds : List Char) : Nat :=
  ds.foldl (fun a c => a * 10 + (c.toNat - 48)) 0

/-! ## Bootstrap Monitor (`onion_service.py`, `monitor_bootstrap` inside
`start_tor_manual`, lines 821-861)

The two regular expressions applied to each line are implemented
concretely: `re.search(r"Bootstrapped (\d+)%", line)` and
`re.search(r"Bootstrapped \d+%.*?: (.+)$", line)`. -/

/-- Match of `Bootstrapped (\d+)%` anchored at the start of `cs`: the
literal `"Bootstrapped "`, a nonempty maximal digit run, then `'%'`. -/
def bootstrapAt (cs : List Char) : Option Nat :=
  if ("Bootstrapped ".data).isPrefixOf cs then
    let rest := cs.drop 13
    let ds := rest.takeWhile Char.isDigit
    let after := rest.dropWhile Char.isDigit
    if !ds.isEmpty && after.head? == some '%' then some (digitsToNat ds) else none
  else none

/-- `re.search(r"Bootstrapped (\d+)%", line)`: leftmost match, returning the
captured percent. -/
def searchBootstrap : List Char → Option Nat
  | [] => none
  | c :: cs =>
    match bootstrapAt (c :: cs) with
    | some n => some n
    | none => searchBootstrap cs

/-- The lazy `.*?: (.+)$` part of the status regex: earliest `": "` whose
remainder is nonempty; the capture is everything after it. -/
def statusFrom : List Char → Option (List Char)
  | [] => none
  | ':' :: ' ' :: rest => if rest.isEmpty then none else some rest
  | _ :: t => statusFrom t

/-- Match of `Bootstrapped \d+%.*?: (.+)$` anchored at the start of `cs`. -/
def statusAt (cs : List Char) : Option (List Char) :=
  if ("Bootstrapped ".data).isPrefixOf cs then
    let rest := cs.drop 13
    let ds := rest.takeWhile Char.isDigit
    let after := rest.dropWhile Char.isDigit
    match after with
    | '%' :: tail => if ds.isEmpty then none else statusFrom tail
    | _ => none
  else none

/-- `re.search(r"Bootstrapped \d+%.*?: (.+)$", line)`: leftmost match,
returning the captured status text. -/
def searchStatus : List Char → Option (List Char)
  | [] => none
  | c :: cs =>
    match statusAt (c :: cs) with
    | some st => some st
    | none => searchStatus cs

/-- State of one run of the bootstrap monitor thread:
`self._bootstrap_progress`, the sequence of `progress_callback`
invocations (in order, with their arguments), the `bootstrap_error`
list, and whether `bootstrap_complete` was set (the loop broke). -/
structure BootstrapMonState where
  bootstrapProgress : Nat
  callbackCalls : List (Nat × String)
  bootstrapErrors : List String
  bootstrapComplete : Bool
deriving Repr, DecidableEq

/-- The trailing error check of the loop body: lines whose lowercase form
contains `"err"` or `"warn"` are inspected, and those containing
`"error"` are appended to `bootstrap_error`. -/
def errorCheck (s : BootstrapMonState) (line : String) : BootstrapMonState :=
  if pyIn "err" (pyLower line) || pyIn "warn" (pyLower line) then
    if pyIn "error" (pyLower line) then
      { s with bootstrapErrors := s.bootstrapErrors ++ [line] }
    else s
  else s

/-- The `status_msg` computed for a matched line: the capture of the
status regex, or `"Connecting..."` when that regex does not match. -/
def statusMsgOf (line : String) : String :=
  match searchStatus line.data with
  | some st => String.mk st
  | none => "Connecting..."

/-- One iteration of `for line in self._tor_process.stdout` in
`monitor_bootstrap`: strip the line, extract the percent (firing the
callback and updating `_bootstrap_progress` on every match), set the
completion event and break at 100, and accumulate error lines. -/
def monitorLine (s : BootstrapMonState) (rawLine : String) : BootstrapMonState :=
  if s.bootstrapComplete then s
  else
    let line := pyStrip rawLine
    match searchBootstrap line.data with
    | some progress =>
      let s1 := { s with
        bootstrapProgress := progress,
        callbackCalls := s.callbackCalls ++ [(progress, statusMsgOf line)] }
      if progress = 100 then { s1 with bootstrapComplete := true }
      else errorCheck s1 line
    | none => errorCheck s line

/-- Monitor state at thread start: `self._bootstrap_progress = 0`,
no callbacks fired, `bootstrap_error = []`, event not set. -/
def initialMonState : BootstrapMonState :=
  { bootstrapProgress := 0, callbackCalls := [], bootstrapErrors := [], bootstrapComplete := false }

/-- The whole reader loop of `monitor_bootstrap` over the sequence of
lines produced by the daemon. -/
def monitor_bootstrap (lines : List String) : BootstrapMonState :=
  lines.foldl monitorLine initialMonState

/-- The percents of the lines matching the bootstrap pattern, truncated
just after the first line reaching exactly 100. -/
def matchedPercents : List String → List Nat
  | [] => []
  | l :: ls =>
    match searchBootstrap (pyStrip l).data with
    | some p => if p = 100 then [p] else p :: matchedPercents ls
    | none => matchedPercents ls

/-! ## Configuration manager (`config_manager.py`)

Python dict values and history entries are modelled as association lists
of string key/value pairs. -/

/-- History entries are Python dicts with string keys; the values that the
orchestrator stores are strings. -/
abbrev HistEntry := List (String × String)

/-- Python dict assignment `d[k] = v`: replace the value of an existing
key in place, otherwise append the new pair. -/
def dictSet (d : HistEntry) (k v : String) : HistEntry :=
  if d.any (fun kv => kv.1 == k) then
    d.map (fun kv => if kv.1 == k then (k, v) else kv)
  else d ++ [(k, v)]

/-- `ConfigManager.add_to_history` (config_manager.py lines 233-251):
stamp the entry with the current timestamp, append it, and keep only the
last 100 entries. `now` is the value `datetime.now().isoformat()`. -/
def add_to_history (history : List HistEntry) (entry : HistEntry) (now : String) :
    List HistEntry :=
  let entry := dictSet entry "timestamp" now
  let history := history ++ [entry]
  if 100 < history.length then history.drop (history.length - 100) else history

/-! ## Port validation (C7)

`ConfigManager.validate_config` (config_manager.py lines 391-411) and the
GUI port form `save_port_config` (gui_app.py lines 963-975). -/

/-- JSON/Python values that can sit under the `nginx_port` key. -/
inductive PyVal where
  | none
  | int (n : Int)
  | str (s : String)
  | bool (b : Bool)
deriving Repr, DecidableEq

/-- Python `isinstance(x, int)`; note that Python booleans are ints. -/
def isinstance_int : PyVal → Bool
  | .int _ => true
  | .bool _ => true
  | _ => false

/-- Numeric value used in the comparisons once `isinstance` has passed. -/
def pyIntValue : PyVal → Int
  | .int n => n
  | .bool b => if b then 1 else 0
  | _ => 0

/-- Configuration as seen by `validate_config`: presence of the required
keys `version`, `services`, `platform`, and the value (if any) under
`nginx_port`. -/
structure ValidateInput where
  hasVersion : Bool
  nginxPort : Option PyVal
  hasServices : Bool
  hasPlatform : Bool
deriving Repr, DecidableEq

/-- `ConfigManager.validate_config`: all required keys must be present and
`nginx_port` must be an int within `[1024, 65535]`. -/
def validate_config (c : ValidateInput) : Bool :=
  if c.hasVersion = false then false
  else match c.nginxPort with
  | Option.none => false
  | some v =>
    if c.hasServices = false then false
    else if c.hasPlatform = false then false
    else if !isinstance_int v
        || decide (pyIntValue v < 1024) || decide (pyIntValue v > 65535) then false
    else true

/-- Python `int(s)` on a decimal string literal: surrounding whitespace is
stripped, an optional sign is allowed, then a nonempty digit run. -/
def pyParseInt (s : String) : Option Int :=
  let t := (pyStrip s).data
  let signDigits : Int × List Char :=
    match t with
    | '+' :: r => (1, r)
    | '-' :: r => (-1, r)
    | r => (1, r)
  if !signDigits.2.isEmpty && signDigits.2.all Char.isDigit then
    some (signDigits.1 * (digitsToNat signDigits.2 : Int))
  else Option.none

/-- GUI `save_port_config` (gui_app.py lines 963-975): parse the entry
text with `int()`, reject ports outside `[1024, 65535]` by raising
`ValueError`, which the handler turns into an error dialog; on success
the port is stored. The `Except` result carries either the saved port or
the dialog message. -/
def save_port_config (input : String) : Except String Int :=
  match pyParseInt input with
  | Option.none => .error ("invalid literal for int() with base 10: " ++ input)
  | some port =>
    if decide (port < 1024) || decide (port > 65535) then
      .error "Port must be between 1024 and 65535"
    else .ok port

/-! ## Platform capability provider (`system_detector.py`, `constants.py`) -/

/-- Detected system facts used by the orchestrator: `is_termux`,
`os_type`, and the detected Linux distribution (absent on non-Linux). -/
structure SysInfo where
  isTermux : Bool
  osType : String
  distro : Option String
deriving Repr, DecidableEq

/-- `SERVICE_COMMANDS` from constants.py, looked up by platform key and
`service_action` key. -/
def serviceCommandsTable (platformKey key : String) : Option String :=
  match platformKey, key with
  | "debian", "tor_start" => some "sudo -S systemctl start tor@default"
  | "debian", "tor_stop" => some "sudo -S systemctl stop tor@default"
  | "debian", "tor_restart" => some "sudo -S systemctl restart tor@default"
  | "debian", "tor_enable" => some "sudo -S systemctl enable tor@default"
  | "debian", "tor_status" => some "sudo -S systemctl status tor@default"
  | "debian", "nginx_start" => some "sudo -S systemctl start nginx"
  | "debian", "nginx_stop" => some "sudo -S systemctl stop nginx"
  | "debian", "nginx_restart" => some "sudo -S systemctl restart nginx"
  | "debian", "nginx_enable" => some "sudo -S systemctl enable nginx"
  | "debian", "nginx_status" => some "sudo -S systemctl status nginx"
  | "debian", "nginx_test" => some "sudo -S nginx -t"
  | "arch", "tor_start" => some "sudo -S systemctl start tor"
  | "arch", "tor_stop" => some "sudo -S systemctl stop tor"
  | "arch", "tor_restart" => some "sudo -S systemctl restart tor"
  | "arch", "tor_enable" => some "sudo -S systemctl enable tor"
  | "arch", "tor_status" => some "sudo -S systemctl status tor"
  | "arch", "nginx_start" => some "sudo -S systemctl start nginx"
  | "arch", "nginx_stop" => some "sudo -S systemctl stop nginx"
  | "arch", "nginx_restart" => some "sudo -S systemctl restart nginx"
  | "arch", "nginx_enable" => some "sudo -S systemctl enable nginx"
  | "arch", "nginx_status" => some "sudo -S systemctl status nginx"
  | "arch", "nginx_test" => some "sudo -S nginx -t"
  | "redhat", "tor_start" => some "sudo -S systemctl start tor"
  | "redhat", "tor_stop" => some "sudo -S systemctl stop tor"
  | "redhat", "tor_restart" => some "sudo -S systemctl restart tor"
  | "redhat", "tor_enable" => some "sudo -S systemctl enable tor"
  | "redhat", "tor_status" => some "sudo -S systemctl status tor"
  | "redhat", "nginx_start" => some "sudo -S systemctl start nginx"
  | "redhat", "nginx_stop" => some "sudo -S systemctl stop nginx"
  | "redhat", "nginx_restart" => some "sudo -S systemctl restart nginx"
  | "redhat", "nginx_enable" => some "sudo -S systemctl enable nginx"
  | "redhat", "nginx_status" => some "sudo -S systemctl status nginx"
  | "redhat", "nginx_test" => some "sudo -S nginx -t"
  | "termux", "tor_start" => some "tor &"
  | "termux", "tor_stop" => some "killall tor"
  | "termux", "tor_restart" => some "killall tor && tor &"
  | "termux", "nginx_start" => some "nginx"
  | "termux", "nginx_stop" => some "killall nginx"
  | "termux", "nginx_restart" => some "killall nginx && nginx"
  | "termux", "nginx_test" => some "nginx -t"
  | "darwin", "tor_start" => some "brew services start tor"
  | "darwin", "tor_stop" => some "brew services stop tor"
  | "darwin", "tor_restart" => some "brew services restart tor"
  | "darwin", "tor_status" => some "brew services list | grep tor"
  | "darwin", "nginx_start" => some "brew services start nginx"
  | "darwin", "nginx_stop" => some "brew services stop nginx"
  | "darwin", "nginx_restart" => some "brew services restart nginx"
  | "darwin", "nginx_status" => some "brew services list | grep nginx"
  | "darwin", "nginx_test" => some "nginx -t"
  | _, _ => Option.none

/-- `PLATFORM_PATHS` from constants.py (Termux environment variables taken
at their defaults; the Windows `{user}` substitution is applied with an
empty user name, as `os.environ.get("USERNAME", "")` yields on the
platforms modelled here). -/
def platformPathsTable (platformKey key : String) : Option String :=
  match platformKey, key with
  | "debian", "tor_config" => some "/etc/tor/torrc"
  | "debian", "tor_service_dir" => some "/var/lib/tor"
  | "debian", "nginx_sites_available" => some "/etc/nginx/sites-available"
  | "debian", "nginx_sites_enabled" => some "/etc/nginx/sites-enabled"
  | "debian", "nginx_config" => some "/etc/nginx/nginx.conf"
  | "debian", "tor_browser_command" => some "torbrowser-launcher"
  | "arch", "tor_config" => some "/etc/tor/torrc"
  | "arch", "tor_service_dir" => some "/var/lib/tor"
  | "arch", "nginx_sites_available" => some "/etc/nginx/sites-available"
  | "arch", "nginx_sites_enabled" => some "/etc/nginx/sites-enabled"
  | "arch", "nginx_config" => some "/etc/nginx/nginx.conf"
  | "arch", "tor_browser_command" => some "torbrowser-launcher"
  | "redhat", "tor_config" => some "/etc/tor/torrc"
  | "redhat", "tor_service_dir" => some "/var/lib/tor"
  | "redhat", "nginx_sites_available" => some "/etc/nginx/conf.d"
  | "redhat", "nginx_sites_enabled" => some "/etc/nginx/conf.d"
  | "redhat", "nginx_config" => some "/etc/nginx/nginx.conf"
  | "redhat", "tor_browser_command" => some "torbrowser-launcher"
  | "darwin", "tor_config" => some "/usr/local/etc/tor/torrc"
  | "darwin", "tor_service_dir" => some "/usr/local/var/lib/tor"
  | "darwin", "nginx_config" => some "/usr/local/etc/nginx/nginx.conf"
  | "darwin", "tor_browser_command" =>
    some "/Applications/Tor Browser.app/Contents/MacOS/firefox"
  | "termux", "tor_config" => some "/data/data/com.termux/files/usr/etc/tor/torrc"
  | "termux", "tor_service_dir" => some "/data/data/com.termux/files/home/.tor"
  | "termux", "nginx_config" => some "/data/data/com.termux/files/usr/etc/nginx/nginx.conf"
  | "windows", "tor_config" =>
    some "C:\\Users\\\\Desktop\\Tor Browser\\Browser\\TorBrowser\\Data\\Tor\\torrc"
  | "windows", "tor_exe" =>
    some "C:\\Users\\\\Desktop\\Tor Browser\\Browser\\TorBrowser\\Tor\\tor.exe"
  | "windows", "tor_browser_exe" =>
    some "C:\\Users\\\\Desktop\\Tor Browser\\Start Tor Browser.exe"
  | "windows", "nginx_config" => some "C:\\nginx\\conf\\nginx.conf"
  | "windows", "tor_service_dir" => some "C:\\Users\\\\AppData\\Roaming\\tor"
  | _, _ => Option.none

/-- Platform key selection shared by `get_service_command` and
`get_platform_paths` in system_detector.py. `get_platform_paths`
additionally resolves a key for Windows. -/
def platformKeyOf (sys : SysInfo) (forPaths : Bool) : Option String :=
  if sys.isTermux then some "termux"
  else if sys.distro = some "debian" || sys.distro = some "arch"
      || sys.distro = some "redhat" then sys.distro
  else if forPaths && sys.osType = "windows" then some "windows"
  else if sys.osType = "darwin" then some "darwin"
  else Option.none

/-- `SystemDetector.get_service_command`. -/
def get_service_command (sys : SysInfo) (service action : String) : Option String :=
  match platformKeyOf sys false with
  | some pk => serviceCommandsTable pk (service ++ "_" ++ action)
  | Option.none => Option.none

/-- `self.platform_paths.get(key, default)` once the paths dict for the
platform has been resolved. -/
def pathsGet (pk key dflt : String) : String :=
  (platformPathsTable pk key).getD dflt

/-! ## Command runner and world state (`onion_service.py`)

External command execution (`_run_privileged_command` and the direct
`subprocess.run`/`Popen` calls) is driven by an oracle: a list of
`CmdResult`s consumed in order, one per issued command, together with a
log of the issued command strings. -/

/-- `subprocess.CompletedProcess`: exit code and captured output. -/
structure CmdResult where
  returncode : Int
  stdout : String
  stderr : String
deriving Repr, DecidableEq

/-- The persisted configuration keys the orchestrator reads and writes. -/
structure ConfigState where
  nginx_port : Int
  nginx_config_name : String
  site_directory : Option String
  hidden_service_dir : Option String
  onion_address : Option String
  service_running : Bool
  history : List HistEntry
deriving Repr, DecidableEq

/-- Filesystem facts consulted directly (without the command runner):
which paths exist and which of them are directories. -/
structure FsState where
  existingPaths : List String
  dirPaths : List String
deriving Repr, DecidableEq

/-- In-memory fields of `OnionServiceManager`. -/
structure ServiceState where
  torRunning : Bool
  bootstrapProgress : Nat
  onionAddressMem : Option String
  fileWatcher : Bool
  siteDirectoryMem : Option String
deriving Repr, DecidableEq

/-- The whole world a lifecycle operation acts on. -/
structure World where
  sys : SysInfo
  fs : FsState
  config : ConfigState
  svc : ServiceState
  torrc : String
  torrcExists : Bool
  torrcReadable : Bool
  hostnameContent : String
  torOutputLines : List String
  watchdogAvailable : Bool
  errorLogPath : String
  homeDir : String
  appdataDir : String
  envUser : String
  now : String
  pending : List CmdResult
  cmdLog : List String
deriving Repr, DecidableEq

/-- A neutral world used as the base for concrete scenarios. -/
def defaultWorld : World where
  sys := { isTermux := false, osType := "linux", distro := some "debian" }
  fs := { existingPaths := [], dirPaths := [] }
  config :=
    { nginx_port := 8080, nginx_config_name := "onion-site",
      site_directory := Option.none, hidden_service_dir := Option.none,
      onion_address := Option.none, service_running := false, history := [] }
  svc :=
    { torRunning := false, bootstrapProgress := 0,
      onionAddressMem := Option.none, fileWatcher := false,
      siteDirectoryMem := Option.none }
  torrc := ""
  torrcExists := false
  torrcReadable := true
  hostnameContent := ""
  torOutputLines := []
  watchdogAvailable := false
  errorLogPath := "/root/.config/.onion-hoster/nginx-error.log"
  homeDir := "/root"
  appdataDir := ""
  envUser := "root"
  now := "2025-01-01T00:00:00"
  pending := []
  cmdLog := []

/-- Execute one external command: log the command string and consume the
next oracle result (an empty oracle yields a successful empty result). -/
def runPriv (cmd : String) (w : World) : CmdResult × World :=
  match w.pending with
  | [] => ({ returncode := 0, stdout := "", stderr := "" },
      { w with cmdLog := w.cmdLog ++ [cmd] })
  | r :: rest => (r, { w with pending := rest, cmdLog := w.cmdLog ++ [cmd] })

/-! ## Service operations (`onion_service.py`) -/

/-- `VALID_INDEX_FILES` from constants.py. -/
def VALID_INDEX_FILES : List String := ["index.html", "index.htm", "index.php"]

/-- `validate_site_directory` (onion_service.py lines 299-330). -/
def validate_site_directory (fs : FsState) (directory : String) : Bool × String :=
  if !fs.existingPaths.contains directory then (false, "Directory does not exist.")
  else if !fs.dirPaths.contains directory then (false, "Path is not a directory.")
  else if !VALID_INDEX_FILES.any
      (fun f => fs.existingPaths.contains (directory ++ "/" ++ f)) then
    (false,
      "No index file found. Please ensure one of these files exists: index.html, index.htm, index.php")
  else (true, "Directory is valid.")

/-- `NGINX_CONFIG_TEMPLATE` from constants.py with `port`, `root_dir` and
`error_log` substituted. -/
def NGINX_CONFIG_TEMPLATE (port : Int) (root_dir error_log : String) : String :=
  "server \x7b\n    listen 127.0.0.1:" ++ toString port
    ++ ";\n    server_name localhost;\n\n    # Security headers - hide OS info\n"
    ++ "    server_tokens off;\n"
    ++ "    add_header X-Frame-Options \"SAMEORIGIN\" always;\n"
    ++ "    add_header X-Content-Type-Options \"nosniff\" always;\n"
    ++ "    add_header X-XSS-Protection \"1; mode=block\" always;\n"
    ++ "    add_header Referrer-Policy \"no-referrer\" always;\n\n"
    ++ "    root " ++ root_dir ++ ";\n    index index.html index.htm;\n\n"
    ++ "    location / \x7b\n        try_files $uri $uri/ =404;\n    \x7d\n\n"
    ++ "    # Disable access logs for privacy\n    access_log off;\n"
    ++ "    error_log " ++ error_log ++ ";\n\x7d\n"

/-- `TOR_CONFIG_TEMPLATE` from constants.py with the hidden-service
directory and forward port substituted. -/
def TOR_CONFIG_TEMPLATE (hidden_service_dir : String) (nginx_port : Int) : String :=
  "# Onion Hoster Hidden Service Configuration\nHiddenServiceDir " ++ hidden_service_dir
    ++ "\nHiddenServicePort 80 127.0.0.1:" ++ toString nginx_port ++ "\n"

/-- `_start_file_watcher`: a watcher is started only when the watchdog
library is available and a site directory has been stored. -/
def startFileWatcher (w : World) : World :=
  if w.watchdogAvailable && w.svc.siteDirectoryMem.isSome then
    { w with svc := { w.svc with fileWatcher := true } }
  else w

/-- `Path(p).parent` rendered as a string. -/
def parentDir (p : String) : String :=
  String.mk (((p.data.reverse.dropWhile (fun c => c ≠ '/')).drop 1).reverse)

/-- `_get_tor_user` (onion_service.py lines 611-618). -/
def get_tor_user (sys : SysInfo) (envUser : String) : String :=
  if sys.distro = some "debian" then "debian-tor"
  else if sys.osType = "darwin" then envUser
  else "tor"

/-- `_get_tor_group` (onion_service.py lines 620-627). -/
def get_tor_group (sys : SysInfo) : String :=
  if sys.distro = some "debian" then "debian-tor"
  else if sys.osType = "darwin" then "staff"
  else "tor"

/-- Tail of `create_nginx_config` (onion_service.py lines 460-463):
record the site directory and port in the configuration and report
success. -/
def createNginxFinish (w : World) (port : Int) (site_directory : String) :
    (Bool × String) × World :=
  let w := { w with config :=
    { w.config with site_directory := some site_directory, nginx_port := port } }
  ((true, "Nginx configuration created successfully!"), w)

/-- Site-enabling steps of `create_nginx_config` (onion_service.py lines
432-458), reached only when the `sites_enabled` variable was assigned.
`cmdPrev` is the current value of the Python `cmd` variable: when
`enabled_path` does not exist, the source re-runs `cmdPrev` because the
removal command assignment sits inside the `if` but the execution call
does not (the result is ignored either way). -/
def createNginxEnableSite (w : World) (pk config_name config_path cmdPrev : String)
    (port : Int) (site_directory : String) : (Bool × String) × World :=
  let sites_enabled := pathsGet pk "nginx_sites_enabled" "/etc/nginx/sites-enabled"
  let enabled_path := sites_enabled ++ "/" ++ config_name
  let cmd := if w.fs.existingPaths.contains enabled_path then "rm " ++ enabled_path
    else cmdPrev
  let r5 := runPriv ("sudo -S " ++ cmd) w
  let r6 := runPriv ("sudo -S ln -s " ++ config_path ++ " " ++ enabled_path) r5.2
  if r6.1.returncode ≠ 0 then
    ((false, "Failed to enable nginx site: " ++ r6.1.stderr), r6.2)
  else
    let default_enabled := sites_enabled ++ "/default"
    let w6 := if r6.2.fs.existingPaths.contains default_enabled then
        (runPriv ("sudo -S rm " ++ default_enabled) r6.2).2
      else r6.2
    match get_service_command w6.sys "nginx" "test" with
    | some test_cmd =>
      let r7 := runPriv test_cmd w6
      if r7.1.returncode ≠ 0 then
        ((false, "Nginx config test failed: " ++ r7.1.stderr), r7.2)
      else createNginxFinish r7.2 port site_directory
    | Option.none => createNginxFinish w6 port site_directory

/-- Config-write and site-enabling tail of `create_nginx_config`
(onion_service.py lines 387-458), acting on the world `w3` reached after
the copy steps: render the virtual-host text, write it through a
temporary file (modelled with a fixed name) moved into place by the
command runner, then enable the site. The `sites_enabled` variable is
assigned only on non-Termux debian/arch systems; on every other system
evaluating `enabled_path` raises `NameError`, which the enclosing handler
turns into a failure result. -/
def createNginxWrite (w3 : World) (pk site_directory : String) (port : Int) :
    (Bool × String) × World :=
  let _nginx_config := NGINX_CONFIG_TEMPLATE port "/var/www/html" w3.errorLogPath
  let config_name := w3.config.nginx_config_name
  let config_path :=
    if w3.sys.isTermux then
      parentDir (pathsGet pk "nginx_config" "None")
        ++ "/sites-available/" ++ config_name
    else
      pathsGet pk "nginx_sites_available" "/etc/nginx/sites-available"
        ++ "/" ++ config_name
  let temp_file := "/tmp/tmpnginx.conf"
  let cmd := "mv " ++ temp_file ++ " " ++ config_path
  let r4 := runPriv ("sudo -S " ++ cmd) w3
  if r4.1.returncode ≠ 0 then
    ((false, "Failed to write nginx config: " ++ r4.1.stderr), r4.2)
  else
    if !w3.sys.isTermux
        && (w3.sys.distro = some "debian" || w3.sys.distro = some "arch") then
      createNginxEnableSite r4.2 pk config_name config_path cmd port
        site_directory
    else
      ((false, "Error: name \x27sites_enabled\x27 is not defined"), r4.2)

/-- `create_nginx_config` (onion_service.py lines 332-472). -/
def create_nginx_config (w : World) (site_directory : String) (portArg : Option Int) :
    (Bool × String) × World :=
  let port := portArg.getD w.config.nginx_port
  match platformKeyOf w.sys true with
  | Option.none => ((false, "Platform paths not available."), w)
  | some pk =>
    let v := validate_site_directory w.fs site_directory
    if !v.1 then ((false, v.2), w)
    else
      let nginx_root := "/var/www/html"
      let r1 := runPriv ("sudo -S mkdir -p " ++ nginx_root) w
      if r1.1.returncode ≠ 0 then
        ((false, "Failed to create nginx root directory: " ++ r1.1.stderr), r1.2)
      else
        let r2 := runPriv
          ("sudo -S cp -r " ++ site_directory ++ "/* " ++ nginx_root ++ "/") r1.2
        if r2.1.returncode ≠ 0 then
          ((false, "Failed to copy site files: " ++ r2.1.stderr), r2.2)
        else
          let r3 := runPriv ("sudo -S chown -R www-data:www-data " ++ nginx_root) r2.2
          let w3 := { r3.2 with svc :=
            { r3.2.svc with siteDirectoryMem := some site_directory } }
          let w3 := startFileWatcher w3
          createNginxWrite w3 pk site_directory port

/-- Config-file portion of `configure_tor_hidden_service` (onion_service.py
lines 545-598): read the existing daemon configuration, skip the append
when a stanza referencing the hidden-service directory is present, and
otherwise append the rendered stanza (through a temporary file and the
command runner on Linux/macOS, directly on Windows/Termux). -/
def configureTorUpdateConfig (w : World) (tor_config_path hidden_service_dir : String)
    (nginx_port : Int) : (Bool × String) × World :=
  let readRes : String × World :=
    if w.torrcExists then
      if w.torrcReadable then (w.torrc, w)
      else if w.sys.osType ≠ "windows" then
        let r := runPriv ("sudo -S cat " ++ tor_config_path) w
        (if r.1.returncode = 0 then r.1.stdout else "", r.2)
      else ("", w)
    else ("", w)
  let existing_config := readRes.1
  let w := readRes.2
  if pyIn "HiddenServiceDir" existing_config && pyIn hidden_service_dir existing_config then
    ((true, "Tor hidden service configured successfully!"), w)
  else
    let stanza := TOR_CONFIG_TEMPLATE hidden_service_dir nginx_port
    if w.sys.osType = "windows" || w.sys.isTermux then
      ((true, "Tor hidden service configured successfully!"),
        { w with torrc := w.torrc ++ stanza, torrcExists := true })
    else
      let r := runPriv ("sudo -S cat /tmp/tmptor.tor >> " ++ tor_config_path) w
      if r.1.returncode ≠ 0 then
        ((false, "Failed to update tor config: " ++ r.1.stderr), r.2)
      else
        ((true, "Tor hidden service configured successfully!"),
          { r.2 with torrc := r.2.torrc ++ stanza, torrcExists := true })

/-- `configure_tor_hidden_service` (onion_service.py lines 474-609). -/
def configure_tor_hidden_service (w : World) (portArg : Option Int) :
    (Bool × String) × World :=
  let nginx_port := portArg.getD w.config.nginx_port
  match platformKeyOf w.sys true with
  | Option.none => ((false, "Platform paths not available."), w)
  | some pk =>
    match platformPathsTable pk "tor_config" with
    | Option.none => ((false, "Error: tor_config path not available"), w)
    | some tor_config_path =>
      let hidden_service_dir :=
        if w.sys.isTermux then w.homeDir ++ "/.tor/hidden_service"
        else if w.sys.osType = "windows" then w.appdataDir ++ "/tor/hidden_service"
        else pathsGet pk "tor_service_dir" "/var/lib/tor" ++ "/hidden_service"
      let w := { w with config :=
        { w.config with hidden_service_dir := some hidden_service_dir } }
      if w.sys.osType = "windows" || w.sys.isTermux then
        configureTorUpdateConfig w tor_config_path hidden_service_dir nginx_port
      else
        let mk := runPriv ("sudo -S mkdir -p " ++ hidden_service_dir) w
        if mk.1.returncode ≠ 0 then
          ((false, "Failed to create hidden service directory: " ++ mk.1.stderr), mk.2)
        else
          let ch := runPriv ("sudo -S chown -R " ++ get_tor_user mk.2.sys mk.2.envUser
            ++ ":" ++ get_tor_group mk.2.sys ++ " " ++ hidden_service_dir) mk.2
          let cm := runPriv ("sudo -S chmod 700 " ++ hidden_service_dir) ch.2
          if cm.1.returncode ≠ 0 then
            ((false, "Failed to set permissions of hidden service directory: "
              ++ cm.1.stderr), cm.2)
          else configureTorUpdateConfig cm.2 tor_config_path hidden_service_dir nginx_port

/-- `start_nginx` (onion_service.py lines 629-653). -/
def start_nginx (w : World) : (Bool × String) × World :=
  match get_service_command w.sys "nginx" "start" with
  | Option.none => ((false, "Start command not available for your platform."), w)
  | some cmd =>
    let r := runPriv cmd w
    if r.1.returncode = 0 then ((true, "Nginx started successfully!"), r.2)
    else ((false, "Failed to start Nginx: "
      ++ (if r.1.stderr = "" then "Unknown error occurred" else r.1.stderr)), r.2)

/-- `stop_nginx` (onion_service.py lines 655-679): a nonzero exit of the
stop command is still reported as success ("sometimes stopping already
stopped service returns non-zero"). -/
def stop_nginx (w : World) : (Bool × String) × World :=
  match get_service_command w.sys "nginx" "stop" with
  | Option.none => ((false, "Stop command not available for your platform."), w)
  | some cmd =>
    let r := runPriv cmd w
    if r.1.returncode = 0 then ((true, "Nginx stopped successfully!"), r.2)
    else ((true, "Nginx stopped."), r.2)

/-- Python truthiness of an optional string: `None` and the empty string
are falsy. -/
def pyTruthy : Option String → Bool
  | Option.none => false
  | some s => !(s = "")

/-- `_read_onion_address` (onion_service.py lines 904-932). -/
def read_onion_address (w : World) : Option String × World :=
  match w.config.hidden_service_dir with
  | Option.none => (Option.none, w)
  | some hsd =>
    let hostname_file := hsd ++ "/hostname"
    if w.sys.osType = "linux" && !w.sys.isTermux then
      let r := runPriv ("sudo -S cat " ++ hostname_file) w
      if r.1.returncode = 0 then (some (pyStrip r.1.stdout), r.2)
      else (Option.none, r.2)
    else
      if w.fs.existingPaths.contains hostname_file then
        (some (pyStrip w.hostnameContent), w)
      else (Option.none, w)

/-- Spawn-and-monitor tail of `start_tor_manual` (onion_service.py lines
785-896): the daemon process is spawned, the monitor thread consumes the
output lines observed within the 120-second window, and the outcome
depends on whether the completion event was set. -/
def startTorSpawnMonitor (w : World) : (Bool × String) × World :=
  let mon := monitor_bootstrap w.torOutputLines
  let w := { w with svc :=
    { w.svc with torRunning := true, bootstrapProgress := mon.bootstrapProgress } }
  if mon.bootstrapComplete then
    let rd := read_onion_address w
    let w2 := { rd.2 with svc := { rd.2.svc with onionAddressMem := rd.1 } }
    if pyTruthy rd.1 then
      ((true, "Tor service started successfully! Your .onion address: "
        ++ rd.1.getD ""), w2)
    else
      ((true, "Tor service started! Address will be available shortly."), w2)
  else
    if !mon.bootstrapErrors.isEmpty then
      ((false, "Tor bootstrap timed out. Errors: "
        ++ String.intercalate " | " (mon.bootstrapErrors.take 3)), w)
    else
      ((false, "Tor bootstrap timed out at " ++ toString mon.bootstrapProgress
        ++ "%. Please check your network connection."), w)

/-- `start_tor_manual` (onion_service.py lines 707-902), Linux
configuration-verification step included. -/
def start_tor_manual (w : World) : (Bool × String) × World :=
  if w.svc.torRunning then ((true, "Tor is already running."), w)
  else
    match platformKeyOf w.sys true with
    | Option.none => ((false, "Platform paths not available."), w)
    | some pk =>
      match w.config.hidden_service_dir with
      | Option.none =>
        ((false, "Hidden service directory not configured. Please configure first."), w)
      | some _ =>
        let tor_config_path := pathsGet pk "tor_config" "None"
        if w.sys.osType = "linux" && !w.sys.isTermux then
          let vr := runPriv ("sudo -u " ++ get_tor_user w.sys w.envUser
            ++ " tor --verify-config -f " ++ tor_config_path) w
          if vr.1.returncode ≠ 0 then
            ((false, "Tor configuration is invalid: "
              ++ (if vr.1.stderr = "" then vr.1.stdout else vr.1.stderr)), vr.2)
          else startTorSpawnMonitor vr.2
        else startTorSpawnMonitor w

/-- First half of `stop_tor` (onion_service.py lines 967-985): terminate
the managed daemon process when it is alive (clearing the handle and the
recorded progress); the Bool records whether something was stopped. -/
def stopTorManualStep (w : World) : Bool × World :=
  if w.svc.torRunning then
    (true, { w with svc :=
      { w.svc with torRunning := false, bootstrapProgress := 0 } })
  else (false, w)

/-- Second half of `stop_tor` (onion_service.py lines 987-996): also try
the platform service stop command; a zero exit marks `stopped` too. -/
def stopTorServiceStep (manual : Bool × World) : Bool × World :=
  match get_service_command manual.2.sys "tor" "stop" with
  | Option.none => manual
  | some cmd =>
    let r := runPriv cmd manual.2
    (manual.1 || decide (r.1.returncode = 0), r.2)

/-- `stop_tor` (onion_service.py lines 960-1001): both outcomes funnel
into a success result. -/
def stop_tor (w : World) : (Bool × String) × World :=
  let viaService := stopTorServiceStep (stopTorManualStep w)
  if viaService.1 then ((true, "Tor stopped successfully!"), viaService.2)
  else ((true, "Tor was not running or already stopped."), viaService.2)

/-- `start_service` (onion_service.py lines 1094-1158). -/
def start_service (w : World) (site_directory : String) :
    (Bool × String × Option String) × World :=
  let v := validate_site_directory w.fs site_directory
  if !v.1 then ((false, v.2, Option.none), w)
  else
    let r1 := create_nginx_config w site_directory Option.none
    if !r1.1.1 then ((false, r1.1.2, Option.none), r1.2)
    else
      let r2 := configure_tor_hidden_service r1.2 Option.none
      if !r2.1.1 then ((false, r2.1.2, Option.none), r2.2)
      else
        let r3 := start_nginx r2.2
        if !r3.1.1 then ((false, "Failed to start Nginx: " ++ r3.1.2, Option.none), r3.2)
        else
          let r4 := start_tor_manual r3.2
          if !r4.1.1 then ((false, "Failed to start Tor: " ++ r4.1.2, Option.none), r4.2)
          else
            let w4 := r4.2
            let addrRead : Option String × World :=
              if pyTruthy w4.svc.onionAddressMem then (w4.svc.onionAddressMem, w4)
              else read_onion_address w4
            if !pyTruthy addrRead.1 then
              ((false,
                "Service started but onion address not available yet. Check back in a moment.",
                Option.none), addrRead.2)
            else
              let onion_address := addrRead.1.getD ""
              let w5 := addrRead.2
              let w5 := { w5 with config := { w5.config with
                service_running := true,
                onion_address := some onion_address,
                history := add_to_history w5.config.history
                  [("action", "service_started"), ("site_directory", site_directory),
                    ("onion_address", onion_address)] w5.now } }
              ((true, "Onion service started successfully!", some onion_address), w5)

/-- `stop_service` (onion_service.py lines 1160-1188): stop the proxy and
the daemon collecting failures, stop the file watcher, clear the running
flag, append a history record, and aggregate any errors. -/
def stop_service (w : World) : (Bool × String) × World :=
  let rn := stop_nginx w
  let rt := stop_tor rn.2
  let errors : List String :=
    (if !rn.1.1 then ["Nginx: " ++ rn.1.2] else [])
      ++ (if !rt.1.1 then ["Tor: " ++ rt.1.2] else [])
  let w2 := { rt.2 with svc := { rt.2.svc with fileWatcher := false } }
  let w2 := { w2 with config := { w2.config with
    service_running := false,
    history := add_to_history w2.config.history [("action", "service_stopped")] w2.now } }
  if !errors.isEmpty then
    ((false, "Errors occurred: " ++ String.intercalate "; " errors), w2)
  else ((true, "Onion service stopped successfully!"), w2)

/-! ## Intermediate worlds of the start sequence and concrete scenarios -/

/-- World after the `create_nginx_config` step of `start_service`. -/
def afterNginxConfig (w : World) (dir : String) : World :=
  (create_nginx_config w dir Option.none).2

/-- World after the `configure_tor_hidden_service` step of `start_service`. -/
def afterTorConfig (w : World) (dir : String) : World :=
  (configure_tor_hidden_service (afterNginxConfig w dir) Option.none).2

/-- World after the `start_nginx` step of `start_service`. -/
def afterNginxStart (w : World) (dir : String) : World :=
  (start_nginx (afterTorConfig w dir)).2

/-- A successful empty command result. -/
def okR : CmdResult := { returncode := 0, stdout := "", stderr := "" }

/-- A failing command result. -/
def failR : CmdResult := { returncode := 1, stdout := "", stderr := "denied" }

/-- A filesystem with a valid site directory `/site` holding an
`index.html`. -/
def siteFs : FsState :=
  { existingPaths := ["/site", "/site/index.html"], dirPaths := ["/site"] }

/-- Debian world with a valid site whose daemon never passes 10%
bootstrap within the wait window (the oracle is empty, so every external
command succeeds). -/
def c2World : World :=
  { defaultWorld with
    fs := siteFs,
    torOutputLines := ["Bootstrapped 10% (conn): Connecting"] }

/-- Debian world with a valid site whose daemon reaches 100% but whose
hostname artifact reads back empty (every command succeeds with empty
output, so the address reads yield the falsy empty string). -/
def c3World : World :=
  { defaultWorld with
    fs := siteFs,
    torOutputLines := ["Bootstrapped 100% (done): Done"] }

/-- Red Hat world with a valid site and an all-successful oracle. -/
def redhatWorld : World :=
  { defaultWorld with
    sys := { isTermux := false, osType := "linux", distro := some "redhat" },
    fs := siteFs }

/-- Debian world whose daemon config already holds `t0`, with an
all-successful oracle for the configuration commands. -/
def c4World (t0 : String) : World :=
  { defaultWorld with
    torrc := t0, torrcExists := true,
    pending := List.replicate 7 okR }

/-- Debian world whose first pending command result (consumed by the
proxy stop command) fails with exit code 1. -/
def stopFailWorld : World :=
  { defaultWorld with pending := [failR, okR] }

/-- Filesystem with an existing directory `/empty` that holds no
recognized index file. -/
def noIndexFs : FsState :=
  { existingPaths := ["/empty"], dirPaths := ["/empty"] }

/-- World whose content directory exists but has no index file. -/
def noIndexWorld : World := { defaultWorld with fs := noIndexFs }

/-- `c4World` after the directory-preparation commands of the first
configuration run: the hidden-service directory is recorded, three oracle
results were consumed, three commands logged. -/
def c4World1 (t0 : String) : World :=
  { c4World t0 with
    config :=
      { (c4World t0).config with hidden_service_dir := some "/var/lib/tor/hidden_service" },
    pending := List.replicate 4 okR,
    cmdLog := ["sudo -S mkdir -p /var/lib/tor/hidden_service",
      "sudo -S chown -R debian-tor:debian-tor /var/lib/tor/hidden_service",
      "sudo -S chmod 700 /var/lib/tor/hidden_service"] }

/-- `c4World` after the first full configuration run: the stanza has been
appended to the daemon configuration. -/
def c4World2 (t0 : String) (port : Int) : World :=
  { c4World1 t0 with
    torrc := t0 ++ TOR_CONFIG_TEMPLATE "/var/lib/tor/hidden_service" port,
    torrcExists := true,
    pending := List.replicate 3 okR,
    cmdLog := (c4World1 t0).cmdLog ++ ["sudo -S cat /tmp/tmptor.tor >> /etc/tor/torrc"] }

/-- `c4World2` after the directory-preparation commands of the second
configuration run. -/
def c4World3 (t0 : String) (port : Int) : World :=
  { c4World2 t0 port with
    pending := ([] : List CmdResult),
    cmdLog := (c4World2 t0 port).cmdLog ++ ["sudo -S mkdir -p /var/lib/tor/hidden_service",
      "sudo -S chown -R debian-tor:debian-tor /var/lib/tor/hidden_service",
      "sudo -S chmod 700 /var/lib/tor/hidden_service"] }

/-! ### String containment lemmas -/

theorem isPrefixOf_refl (l : List Char) : l.isPrefixOf l = true := by
  induction l with
  | nil => rfl
  | cons a as ih => simp [List.isPrefixOf, ih]

theorem isPrefixOf_append_ext (l t u : List Char) (h : l.isPrefixOf t = true) :
    l.isPrefixOf (t ++ u) = true := by
  induction l generalizing t with
  | nil => simp [List.isPrefixOf]
  | cons a as ih =>
    cases t with
    | nil => simp [List.isPrefixOf] at h
    | cons b bs =>
      simp only [List.isPrefixOf, Bool.and_eq_true] at h ⊢
      exact ⟨h.1, ih bs h.2⟩

theorem containsSeq_nil (t : List Char) : containsSeq [] t = true := by
  induction t with
  | nil => rfl
  | cons c cs ih => simp [containsSeq, List.isPrefixOf]

theorem containsSeq_append_left (n a b : List Char) (h : containsSeq n a = true) :
    containsSeq n (a ++ b) = true := by
  induction a with
  | nil =>
    simp only [containsSeq] at h
    have hn : n = [] := by
      cases n with
      | nil => rfl
      | cons c cs => simp [List.isPrefixOf] at h
    subst hn
    simpa using containsSeq_nil b
  | cons c t ih =>
    simp only [containsSeq, Bool.or_eq_true] at h ⊢
    rcases h with h | h
    · exact Or.inl (isPrefixOf_append_ext n (c :: t) b h)
    · exact Or.inr (ih h)

theorem containsSeq_append_right (n b a : List Char) (h : containsSeq n b = true) :
    containsSeq n (a ++ b) = true := by
  induction a with
  | nil => simpa using h
  | cons c t ih =>
    simp only [List.cons_append, containsSeq, Bool.or_eq_true]
    exact Or.inr ih

theorem containsSeq_self (n t : List Char) : containsSeq n (n ++ t) = true := by
  cases n with
  | nil => simpa using containsSeq_nil t
  | cons c cs =>
    simp only [List.cons_append, containsSeq, Bool.or_eq_true]
    exact Or.inl (isPrefixOf_append_ext _ _ _ (isPrefixOf_refl (c :: cs)))

theorem pyIn_append_left (n a b : String) (h : pyIn n a = true) :
    pyIn n (a ++ b) = true := by
  simp only [pyIn, String.data_append]
  exact containsSeq_append_left _ _ _ h

theorem pyIn_append_right (n a b : String) (h : pyIn n b = true) :
    pyIn n (a ++ b) = true := by
  simp only [pyIn, String.data_append]
  exact containsSeq_append_right _ _ _ h

theorem pyIn_self_append (n b : String) : pyIn n (n ++ b) = true := by
  simp only [pyIn, String.data_append]
  exact containsSeq_self _ _

theorem pyIn_refl (n : String) : pyIn n n = true := by
  have h := pyIn_self_append n ""
  simpa using h

theorem pyIn_hsdir_stanza (hsd : String) (port : Int) :
    pyIn "HiddenServiceDir" (TOR_CONFIG_TEMPLATE hsd port) = true := by
  unfold TOR_CONFIG_TEMPLATE
  apply pyIn_append_left
  apply pyIn_append_left
  apply pyIn_append_left
  apply pyIn_append_left
  rfl

theorem pyIn_dir_stanza (hsd : String) (port : Int) :
    pyIn hsd (TOR_CONFIG_TEMPLATE hsd port) = true := by
  unfold TOR_CONFIG_TEMPLATE
  apply pyIn_append_left
  apply pyIn_append_left
  apply pyIn_append_left
  apply pyIn_append_right
  exact pyIn_refl hsd

/-! ### Behaviour of the configuration-update step -/

theorem ctuc_append (w : World) (tcp hsd : String) (port : Int)
    (hex : w.torrcExists = true) (hrd : w.torrcReadable = true)
    (hos : w.sys.osType = "linux") (hterm : w.sys.isTermux = false)
    (hrc : (w.pending.headD { returncode := 0, stdout := "", stderr := "" }).returncode = 0)
    (h0 : pyIn hsd w.torrc = false) :
    configureTorUpdateConfig w tcp hsd port =
      ((true, "Tor hidden service configured successfully!"),
        { w with torrc := w.torrc ++ TOR_CONFIG_TEMPLATE hsd port, torrcExists := true,
                 pending := w.pending.tail,
                 cmdLog := w.cmdLog ++ ["sudo -S cat /tmp/tmptor.tor >> " ++ tcp] }) := by
  cases hpend : w.pending with
  | nil =>
    simp only [hpend, List.headD] at hrc
    simp [configureTorUpdateConfig, runPriv, hex, hrd, hos, hterm, h0, hpend]
  | cons r rest =>
    simp only [hpend, List.headD] at hrc
    simp [configureTorUpdateConfig, runPriv, hex, hrd, hos, hterm, h0, hpend, hrc]

theorem ctuc_skip (w : World) (tcp hsd : String) (port : Int)
    (hex : w.torrcExists = true) (hrd : w.torrcReadable = true)
    (h1 : pyIn "HiddenServiceDir" w.torrc = true) (h2 : pyIn hsd w.torrc = true) :
    configureTorUpdateConfig w tcp hsd port =
      ((true, "Tor hidden service configured successfully!"), w) := by
  simp [configureTorUpdateConfig, hex, hrd, h1, h2]

/-! ### Preservation lemmas for the stop path -/

theorem runPriv_snd_config (c : String) (w : World) :
    (runPriv c w).2.config = w.config := by
  unfold runPriv
  split <;> rfl

theorem runPriv_snd_now (c : String) (w : World) :
    (runPriv c w).2.now = w.now := by
  unfold runPriv
  split <;> rfl

theorem runPriv_snd_sys (c : String) (w : World) :
    (runPriv c w).2.sys = w.sys := by
  unfold runPriv
  split <;> rfl

theorem stop_nginx_snd_config (w : World) : (stop_nginx w).2.config = w.config := by
  unfold stop_nginx
  split
  · rfl
  · dsimp only
    split <;> exact runPriv_snd_config _ _

theorem stop_nginx_snd_now (w : World) : (stop_nginx w).2.now = w.now := by
  unfold stop_nginx
  split
  · rfl
  · dsimp only
    split <;> exact runPriv_snd_now _ _

theorem stopTorManualStep_snd_config (w : World) :
    (stopTorManualStep w).2.config = w.config := by
  unfold stopTorManualStep
  split <;> rfl

theorem stopTorManualStep_snd_now (w : World) :
    (stopTorManualStep w).2.now = w.now := by
  unfold stopTorManualStep
  split <;> rfl

theorem stopTorServiceStep_snd_config (m : Bool × World) :
    (stopTorServiceStep m).2.config = m.2.config := by
  unfold stopTorServiceStep
  split
  · rfl
  · dsimp only
    exact runPriv_snd_config _ _

theorem stopTorServiceStep_snd_now (m : Bool × World) :
    (stopTorServiceStep m).2.now = m.2.now := by
  unfold stopTorServiceStep
  split
  · rfl
  · dsimp only
    exact runPriv_snd_now _ _

theorem stop_tor_snd_config (w : World) : (stop_tor w).2.config = w.config := by
  unfold stop_tor
  dsimp only
  split <;>
    exact (stopTorServiceStep_snd_config _).trans (stopTorManualStep_snd_config _)

theorem stop_tor_snd_now (w : World) : (stop_tor w).2.now = w.now := by
  unfold stop_tor
  dsimp only
  split <;>
    exact (stopTorServiceStep_snd_now _).trans (stopTorManualStep_snd_now _)

theorem stop_tor_always_succeeds (w : World) : (stop_tor w).1.1 = true := by
  unfold stop_tor
  dsimp only
  split <;> rfl

theorem startFileWatcher_sys (w : World) : (startFileWatcher w).sys = w.sys := by
  unfold startFileWatcher
  split <;> rfl

theorem stop_nginx_fst_of_cmd (w : World) (c : String)
    (hc : get_service_command w.sys "nginx" "stop" = some c) :
    (stop_nginx w).1.1 = true := by
  unfold stop_nginx
  rw [hc]
  dsimp only
  split <;> rfl

theorem stop_service_snd (w : World) :
    (stop_service w).2 =
      { (stop_tor (stop_nginx w).2).2 with
        svc := { (stop_tor (stop_nginx w).2).2.svc with fileWatcher := false },
        config := { (stop_tor (stop_nginx w).2).2.config with
          service_running := false,
          history := add_to_history (stop_tor (stop_nginx w).2).2.config.history
            [("action", "service_stopped")] (stop_tor (stop_nginx w).2).2.now } } := by
  unfold stop_service
  dsimp only
  split <;> split <;> rfl

theorem stop_service_fst (w : World) :
    (stop_service w).1 =
      (if !((if !(stop_nginx w).1.1 then ["Nginx: " ++ (stop_nginx w).1.2] else [])
          ++ (if !(stop_tor (stop_nginx w).2).1.1 then
            ["Tor: " ++ (stop_tor (stop_nginx w).2).1.2] else [])).isEmpty then
        (false, "Errors occurred: " ++ String.intercalate "; "
          ((if !(stop_nginx w).1.1 then ["Nginx: " ++ (stop_nginx w).1.2] else [])
            ++ (if !(stop_tor (stop_nginx w).2).1.1 then
              ["Tor: " ++ (stop_tor (stop_nginx w).2).1.2] else [])))
      else (true, "Onion service stopped successfully!")) := by
  unfold stop_service
  dsimp only
  split <;> split <;> rfl

/-! ### Lemmas about the monitor loop -/

theorem errorCheck_callbackCalls (s : BootstrapMonState) (l : String) :
    (errorCheck s l).callbackCalls = s.callbackCalls := by
  unfold errorCheck
  split <;> [split <;> rfl; rfl]

theorem errorCheck_bootstrapComplete (s : BootstrapMonState) (l : String) :
    (errorCheck s l).bootstrapComplete = s.bootstrapComplete := by
  unfold errorCheck
  split <;> [split <;> rfl; rfl]

theorem monitorLine_of_complete (s : BootstrapMonState) (l : String)
    (h : s.bootstrapComplete = true) : monitorLine s l = s := by
  simp [monitorLine, h]

theorem foldl_monitorLine_of_complete (ls : List String) (s : BootstrapMonState)
    (h : s.bootstrapComplete = true) : ls.foldl monitorLine s = s := by
  induction ls with
  | nil => rfl
  | cons l ls ih => rw [List.foldl_cons, monitorLine_of_complete s l h, ih]

theorem foldl_monitorLine_calls (ls : List String) :
    ∀ s : BootstrapMonState, s.bootstrapComplete = false →
      ((ls.foldl monitorLine s).callbackCalls).map Prod.fst
        = s.callbackCalls.map Prod.fst ++ matchedPercents ls := by
  induction ls with
  | nil => intro s _; simp [matchedPercents]
  | cons l ls ih =>
    intro s hs
    rw [List.foldl_cons]
    cases h : searchBootstrap (pyStrip l).data with
    | none =>
      have hstep : monitorLine s l = errorCheck s (pyStrip l) := by
        simp [monitorLine, hs, h]
      rw [hstep, ih _ (by rw [errorCheck_bootstrapComplete]; exact hs),
        errorCheck_callbackCalls]
      simp [matchedPercents, h]
    | some p =>
      by_cases hp : p = 100
      · subst hp
        have hstep : monitorLine s l =
            { bootstrapProgress := 100,
              callbackCalls := s.callbackCalls ++ [(100, statusMsgOf (pyStrip l))],
              bootstrapErrors := s.bootstrapErrors,
              bootstrapComplete := true } := by
          simp [monitorLine, hs, h]
        rw [hstep, foldl_monitorLine_of_complete _ _ rfl]
        simp [matchedPercents, h]
      · have hstep : monitorLine s l =
            errorCheck
              { bootstrapProgress := p,
                callbackCalls := s.callbackCalls ++ [(p, statusMsgOf (pyStrip l))],
                bootstrapErrors := s.bootstrapErrors,
                bootstrapComplete := s.bootstrapComplete }
              (pyStrip l) := by
          simp [monitorLine, hs, h, hp]
        rw [hstep, ih _ (by rw [errorCheck_bootstrapComplete]; exact hs),
          errorCheck_callbackCalls]
        simp [matchedPercents, h, hp]

/-! ### Claim C1 -/

/-- C1 counterexample: the claim that the sequence of percentages passed to
the progress callback is strictly increasing for every input is false.
Feeding the reader the same `Bootstrapped 50%` line twice fires the
callback twice with percent 50: `monitor_bootstrap` has no guard comparing
the matched percent with the previously recorded one. -/
theorem C1_counterexample :
    ¬ List.Chain' (· < ·)
      ((monitor_bootstrap
        ["Bootstrapped 50%: x", "Bootstrapped 50%: x"]).callbackCalls.map Prod.fst) := by
  have h : ((monitor_bootstrap
      ["Bootstrapped 50%: x", "Bootstrapped 50%: x"]).callbackCalls.map Prod.fst)
      = [50, 50] := rfl
  rw [h]
  simp [List.chain'_cons]

/-- C1 (amended): the progress callback fires exactly once per daemon
output line matching the `Bootstrapped (\d+)%` pattern, with that line's
percent, stopping after the first line reaching exactly 100%; the
delivered percent sequence equals the matched-line percents in order and
is neither deduplicated nor forced to be increasing. -/
theorem C1_callback_percent_sequence (lines : List String) :
    (monitor_bootstrap lines).callbackCalls.map Prod.fst = matchedPercents lines := by
  simpa [initialMonState] using foldl_monitorLine_calls lines initialMonState rfl

/-! ### Claim C2 -/

/-- C2 counterexample: on a bootstrap timeout `start_service` does return
the bootstrap-timeout error, but the claimed best-effort proxy cleanup
does not happen: the nginx stop command is never issued on this path. -/
theorem C2_counterexample :
    (start_service c2World "/site").1
      = (false,
        "Failed to start Tor: Tor bootstrap timed out at 10%. Please check your network connection.",
        Option.none) ∧
    ¬ ("sudo -S systemctl stop nginx" ∈ (start_service c2World "/site").2.cmdLog) :=
  ⟨rfl, by decide⟩

/-- C2 (amended): when the daemon step of `start_service` fails (for
example by bootstrap timeout), `start_service` returns
`"Failed to start Tor: "` followed by the underlying reason and stops
immediately: the returned world is exactly the post-failure world, so no
proxy stop command is issued and no cleanup or state change occurs. -/
theorem C2_no_proxy_cleanup_on_tor_failure (w : World) (dir : String)
    (h0 : (validate_site_directory w.fs dir).1 = true)
    (h1 : (create_nginx_config w dir Option.none).1.1 = true)
    (h2 : (configure_tor_hidden_service (afterNginxConfig w dir) Option.none).1.1 = true)
    (h3 : (start_nginx (afterTorConfig w dir)).1.1 = true)
    (h4 : (start_tor_manual (afterNginxStart w dir)).1.1 = false) :
    start_service w dir =
      ((false, "Failed to start Tor: " ++ (start_tor_manual (afterNginxStart w dir)).1.2,
        Option.none), (start_tor_manual (afterNginxStart w dir)).2) := by
  simp only [afterNginxStart, afterTorConfig, afterNginxConfig] at h2 h3 h4
  unfold start_service afterNginxStart afterTorConfig afterNginxConfig
  simp only [h0, h1, h2, h3, h4, Bool.not_true, Bool.not_false, if_true, if_false,
    Bool.false_eq_true, Bool.true_eq_false, ite_false, ite_true]

/-- C2 witness: the amended theorem applied to the concrete timeout world. -/
theorem C2_no_proxy_cleanup_witness :
    (start_tor_manual (afterNginxStart c2World "/site")).1.1 = false ∧
    start_service c2World "/site" =
      ((false, "Failed to start Tor: "
          ++ (start_tor_manual (afterNginxStart c2World "/site")).1.2,
        Option.none), (start_tor_manual (afterNginxStart c2World "/site")).2) :=
  ⟨rfl, C2_no_proxy_cleanup_on_tor_failure c2World "/site" rfl rfl rfl rfl rfl⟩

/-! ### Claim C3 -/

/-- C3 counterexample: with the daemon at 100% but the address artifact
unreadable, the inner `start_tor_manual` succeeds with a poll-later hint,
but `start_service` returns `success = false`, contradicting the claim
that start returns success with a null address. -/
theorem C3_counterexample :
    (start_tor_manual (afterNginxStart c3World "/site")).1
      = (true, "Tor service started! Address will be available shortly.") ∧
    (start_service c3World "/site").1
      = (false,
        "Service started but onion address not available yet. Check back in a moment.",
        Option.none) :=
  ⟨rfl, rfl⟩

/-- C3 (amended): when the daemon reaches 100% but no onion address is
readable, `start_tor_manual` reports success with a poll-later hint, yet
`start_service` returns failure (`success = false`) with a null address
and the message telling the caller to check back; the running flag is not
set and no history record is appended (the returned world is the
post-read world). -/
theorem C3_address_unavailable_is_failure (w : World) (dir : String)
    (h0 : (validate_site_directory w.fs dir).1 = true)
    (h1 : (create_nginx_config w dir Option.none).1.1 = true)
    (h2 : (configure_tor_hidden_service (afterNginxConfig w dir) Option.none).1.1 = true)
    (h3 : (start_nginx (afterTorConfig w dir)).1.1 = true)
    (h4 : (start_tor_manual (afterNginxStart w dir)).1.1 = true)
    (hmem : pyTruthy (start_tor_manual (afterNginxStart w dir)).2.svc.onionAddressMem = false)
    (hread : pyTruthy (read_onion_address (start_tor_manual (afterNginxStart w dir)).2).1
      = false) :
    start_service w dir =
      ((false,
        "Service started but onion address not available yet. Check back in a moment.",
        Option.none), (read_onion_address (start_tor_manual (afterNginxStart w dir)).2).2) := by
  simp only [afterNginxStart, afterTorConfig, afterNginxConfig] at h2 h3 h4 hmem hread
  unfold start_service afterNginxStart afterTorConfig afterNginxConfig
  simp only [h0, h1, h2, h3, h4, hmem, hread, Bool.not_true, Bool.not_false, if_true,
    if_false, Bool.false_eq_true, Bool.true_eq_false, ite_false, ite_true]

/-- C3 witness: the amended theorem applied to the concrete
unreadable-address world. -/
theorem C3_address_unavailable_witness :
    pyTruthy (read_onion_address (start_tor_manual (afterNginxStart c3World "/site")).2).1
      = false ∧
    start_service c3World "/site" =
      ((false,
        "Service started but onion address not available yet. Check back in a moment.",
        Option.none),
        (read_onion_address (start_tor_manual (afterNginxStart c3World "/site")).2).2) :=
  ⟨rfl, C3_address_unavailable_is_failure c3World "/site" rfl rfl rfl rfl rfl rfl rfl⟩

/-! ### Claim C4 -/

/-- C4: starting from a daemon configuration that does not reference the
hidden-service directory, the first configuration run succeeds and
appends exactly one stanza for that directory, and a second identical run
detects the existing stanza and appends nothing: the configuration text
is unchanged and still holds exactly the one appended stanza. -/
theorem C4_stanza_idempotent (t0 : String) (port : Int)
    (h0 : pyIn "/var/lib/tor/hidden_service" t0 = false) :
    (configure_tor_hidden_service (c4World t0) (some port)).1.1 = true ∧
    (configure_tor_hidden_service (c4World t0) (some port)).2.torrc
      = t0 ++ TOR_CONFIG_TEMPLATE "/var/lib/tor/hidden_service" port ∧
    (configure_tor_hidden_service
      ((configure_tor_hidden_service (c4World t0) (some port)).2) (some port)).1.1 = true ∧
    (configure_tor_hidden_service
      ((configure_tor_hidden_service (c4World t0) (some port)).2) (some port)).2.torrc
      = (configure_tor_hidden_service (c4World t0) (some port)).2.torrc := by
  have e1 : configure_tor_hidden_service (c4World t0) (some port)
      = configureTorUpdateConfig (c4World1 t0) "/etc/tor/torrc"
          "/var/lib/tor/hidden_service" port := rfl
  have e2 := ctuc_append (c4World1 t0) "/etc/tor/torrc" "/var/lib/tor/hidden_service" port
    rfl rfl rfl rfl rfl h0
  have e12 : configure_tor_hidden_service (c4World t0) (some port)
      = ((true, "Tor hidden service configured successfully!"), c4World2 t0 port) := by
    rw [e1, e2]; rfl
  have e3 : configure_tor_hidden_service (c4World2 t0 port) (some port)
      = configureTorUpdateConfig (c4World3 t0 port) "/etc/tor/torrc"
          "/var/lib/tor/hidden_service" port := rfl
  have h1s : pyIn "HiddenServiceDir" (c4World3 t0 port).torrc = true :=
    pyIn_append_right _ _ _ (pyIn_hsdir_stanza _ _)
  have h2s : pyIn "/var/lib/tor/hidden_service" (c4World3 t0 port).torrc = true :=
    pyIn_append_right _ _ _ (pyIn_dir_stanza _ _)
  have e4 := ctuc_skip (c4World3 t0 port) "/etc/tor/torrc"
    "/var/lib/tor/hidden_service" port rfl rfl h1s h2s
  have e34 : configure_tor_hidden_service (c4World2 t0 port) (some port)
      = ((true, "Tor hidden service configured successfully!"), c4World3 t0 port) := by
    rw [e3, e4]
  rw [e12]
  exact ⟨rfl, rfl, by rw [e34], by rw [e34]; rfl⟩

/-- C4 witness: the idempotence theorem applied to a daemon configuration
holding only a SocksPort line. -/
theorem C4_stanza_idempotent_witness :
    pyIn "/var/lib/tor/hidden_service" "SocksPort 9050\n" = false ∧
    ((configure_tor_hidden_service (c4World "SocksPort 9050\n") (some 8080)).1.1 = true ∧
     (configure_tor_hidden_service (c4World "SocksPort 9050\n") (some 8080)).2.torrc
       = "SocksPort 9050\n"
         ++ TOR_CONFIG_TEMPLATE "/var/lib/tor/hidden_service" 8080 ∧
     (configure_tor_hidden_service
       ((configure_tor_hidden_service (c4World "SocksPort 9050\n") (some 8080)).2)
       (some 8080)).1.1 = true ∧
     (configure_tor_hidden_service
       ((configure_tor_hidden_service (c4World "SocksPort 9050\n") (some 8080)).2)
       (some 8080)).2.torrc
       = (configure_tor_hidden_service (c4World "SocksPort 9050\n") (some 8080)).2.torrc) :=
  ⟨rfl, C4_stanza_idempotent "SocksPort 9050\n" 8080 rfl⟩

/-! ### Claim C5 -/

/-- C5 counterexample: when the proxy stop command runs and exits with a
nonzero code (the first oracle result fails), `stop()` still reports
overall success, because `stop_nginx` treats a nonzero exit of the stop
command as success; no aggregated error naming the proxy is returned.
The log shows both stop commands were executed. -/
theorem C5_counterexample :
    (stop_service stopFailWorld).1 = (true, "Onion service stopped successfully!") ∧
    (stop_service stopFailWorld).2.cmdLog
      = ["sudo -S systemctl stop nginx", "sudo -S systemctl stop tor@default"] :=
  ⟨rfl, rfl⟩

/-- C5 (amended): `stop()` always clears the persisted running flag,
always stops the file watcher, and always appends the stop record to the
history, regardless of sub-stop outcomes; it returns an aggregated error
naming Nginx only when the proxy stop command is unavailable for the
platform — when the stop command exists, `stop()` reports success even if
the command exits nonzero, because `stop_nginx` maps nonzero exits to
success. -/
theorem C5_stop_invariants (w : World) :
    (stop_service w).2.config.service_running = false ∧
    (stop_service w).2.svc.fileWatcher = false ∧
    (stop_service w).2.config.history
      = add_to_history w.config.history [("action", "service_stopped")] w.now ∧
    (get_service_command w.sys "nginx" "stop" = Option.none →
      (stop_service w).1
        = (false, "Errors occurred: Nginx: Stop command not available for your platform.")) ∧
    (∀ c, get_service_command w.sys "nginx" "stop" = some c →
      (stop_service w).1.1 = true) := by
  have hcfg : (stop_tor (stop_nginx w).2).2.config = w.config :=
    (stop_tor_snd_config _).trans (stop_nginx_snd_config _)
  have hnow : (stop_tor (stop_nginx w).2).2.now = w.now :=
    (stop_tor_snd_now _).trans (stop_nginx_snd_now _)
  refine ⟨?_, ?_, ?_, ?_, ?_⟩
  · rw [stop_service_snd]
  · rw [stop_service_snd]
  · rw [stop_service_snd]
    dsimp only
    rw [hcfg, hnow]
  · intro hn
    have hsn : stop_nginx w
        = ((false, "Stop command not available for your platform."), w) := by
      simp [stop_nginx, hn]
    rw [stop_service_fst, hsn]
    dsimp only
    rw [stop_tor_always_succeeds]
    rfl
  · intro c hc
    rw [stop_service_fst, stop_nginx_fst_of_cmd w c hc, stop_tor_always_succeeds]
    rfl

/-- C5 witness: the invariants theorem applied to the failing-stop world
(the proxy stop command exists and exits nonzero, yet `stop()` reports
success and the running flag is cleared). -/
theorem C5_stop_invariants_witness :
    get_service_command stopFailWorld.sys "nginx" "stop"
      = some "sudo -S systemctl stop nginx" ∧
    (stop_service stopFailWorld).1.1 = true ∧
    (stop_service stopFailWorld).2.config.service_running = false :=
  ⟨rfl, (C5_stop_invariants stopFailWorld).2.2.2.2 "sudo -S systemctl stop nginx" rfl,
    (C5_stop_invariants stopFailWorld).1⟩

/-! ### Claim C6 -/

/-- C6: when the content directory exists and is a directory but holds no
recognized index file, `start_service` returns the invalid-configuration
message and the world is returned unchanged: no command was issued (the
command log is untouched) and no configuration was mutated. -/
theorem C6_validation_failure_runs_nothing (w : World) (dir : String)
    (h1 : w.fs.existingPaths.contains dir = true)
    (h2 : w.fs.dirPaths.contains dir = true)
    (h3 : ∀ f ∈ VALID_INDEX_FILES,
      w.fs.existingPaths.contains (dir ++ "/" ++ f) = false) :
    start_service w dir =
      ((false,
        "No index file found. Please ensure one of these files exists: index.html, index.htm, index.php",
        Option.none), w) := by
  have ha1 := h3 "index.html" (by simp [VALID_INDEX_FILES])
  have ha2 := h3 "index.htm" (by simp [VALID_INDEX_FILES])
  have ha3 := h3 "index.php" (by simp [VALID_INDEX_FILES])
  have hv : validate_site_directory w.fs dir =
      (false,
        "No index file found. Please ensure one of these files exists: index.html, index.htm, index.php") := by
    unfold validate_site_directory
    simp only [VALID_INDEX_FILES, List.any_cons, List.any_nil]
    simp at h1 h2 ha1 ha2 ha3
    simp [h1, h2, ha1, ha2, ha3]
  unfold start_service
  rw [hv]
  rfl

/-- C6 witness: the theorem applied to a directory holding no index file. -/
theorem C6_validation_failure_witness :
    noIndexWorld.fs.existingPaths.contains "/empty" = true ∧
    start_service noIndexWorld "/empty" =
      ((false,
        "No index file found. Please ensure one of these files exists: index.html, index.htm, index.php",
        Option.none), noIndexWorld) :=
  ⟨rfl, C6_validation_failure_runs_nothing noIndexWorld "/empty" rfl rfl (by decide)⟩

/-! ### Claim C7 -/

/-- C7: the configuration validator accepts an integer `nginx_port`
exactly when it lies in `[1024, 65535]` and rejects string and null
values; the GUI port form accepts a parsed port exactly on the same
range and reports the `int()` parse error on non-numeric input. -/
theorem C7_port_validation :
    (∀ n : Int, validate_config
        { hasVersion := true, nginxPort := some (PyVal.int n),
          hasServices := true, hasPlatform := true } = true ↔ 1024 ≤ n ∧ n ≤ 65535) ∧
    (∀ s : String, validate_config
        { hasVersion := true, nginxPort := some (PyVal.str s),
          hasServices := true, hasPlatform := true } = false) ∧
    (validate_config
        { hasVersion := true, nginxPort := some PyVal.none,
          hasServices := true, hasPlatform := true } = false) ∧
    (∀ s : String, ∀ n : Int, pyParseInt s = some n →
      (save_port_config s = Except.ok n ↔ 1024 ≤ n ∧ n ≤ 65535)) ∧
    (∀ s : String, pyParseInt s = Option.none →
      save_port_config s = Except.error ("invalid literal for int() with base 10: " ++ s)) := by
  refine ⟨?_, ?_, rfl, ?_, ?_⟩
  · intro n
    simp only [validate_config, isinstance_int, pyIntValue]
    constructor
    · intro h
      by_contra hn
      simp only [not_and_or, not_le] at hn
      rcases hn with hn | hn
      · simp [show n < 1024 by omega] at h
      · simp [show n > 65535 by omega] at h
    · intro h
      simp [show ¬(n < 1024) by omega, show ¬(n > 65535) by omega]
  · intro s
    rfl
  · intro s n h
    simp only [save_port_config, h]
    by_cases h1 : n < 1024
    · simp [h1]
      try omega
    · by_cases h2 : n > 65535
      · simp [h1, h2]
        try omega
      · simp [h1, h2]
        try omega
  · intro s h
    simp [save_port_config, h]

/-- C7 witness: port 8080 is accepted by both validators, port 80 and a
non-numeric string are rejected. -/
theorem C7_port_validation_witness :
    pyParseInt "8080" = some 8080 ∧
    save_port_config "8080" = Except.ok 8080 ∧
    validate_config
      { hasVersion := true, nginxPort := some (PyVal.int 8080),
        hasServices := true, hasPlatform := true } = true ∧
    validate_config
      { hasVersion := true, nginxPort := some (PyVal.int 80),
        hasServices := true, hasPlatform := true } = false ∧
    save_port_config "many" = Except.error "invalid literal for int() with base 10: many" := by
  refine ⟨rfl, ?_, ?_, ?_, ?_⟩
  · exact (C7_port_validation.2.2.2.1 "8080" 8080 rfl).mpr (by omega)
  · exact (C7_port_validation.1 8080).mpr (by omega)
  · rfl
  · exact C7_port_validation.2.2.2.2 "many" rfl

/-! ### Claim C8 -/

/-- C8: after `add_to_history` the history holds at most 100 records, the
newly stamped entry is the last element, the result is a suffix of the
old history extended with the stamped entry, and its length is exactly
`min (old + 1) 100` — so when the cap is exceeded only the most recent
100 entries remain. -/
theorem C8_history_capped (history : List HistEntry) (entry : HistEntry) (now : String) :
    (add_to_history history entry now).length ≤ 100 ∧
    (add_to_history history entry now).getLast?
      = some (dictSet entry "timestamp" now) ∧
    (add_to_history history entry now)
      <:+ (history ++ [dictSet entry "timestamp" now]) ∧
    (add_to_history history entry now).length = min (history.length + 1) 100 := by
  unfold add_to_history
  dsimp only
  by_cases hc : 100 < (history ++ [dictSet entry "timestamp" now]).length
  · rw [if_pos hc]
    have hlen : (history ++ [dictSet entry "timestamp" now]).length
        = history.length + 1 := by simp
    refine ⟨?_, ?_, List.drop_suffix _ _, ?_⟩
    · rw [List.length_drop]
      omega
    · have hne : ((history ++ [dictSet entry "timestamp" now]).drop
          ((history ++ [dictSet entry "timestamp" now]).length - 100)) ≠ [] := by
        intro hnil
        have hlh := congrArg List.length hnil
        rw [List.length_drop] at hlh
        simp only [List.length_nil] at hlh
        omega
      have hsplit := List.take_append_drop
        ((history ++ [dictSet entry "timestamp" now]).length - 100)
        (history ++ [dictSet entry "timestamp" now])
      have hlast : (history ++ [dictSet entry "timestamp" now]).getLast?
          = some (dictSet entry "timestamp" now) := List.getLast?_concat _
      rw [← hsplit, List.getLast?_append] at hlast
      cases hgl : ((history ++ [dictSet entry "timestamp" now]).drop
          ((history ++ [dictSet entry "timestamp" now]).length - 100)).getLast? with
      | none => exact absurd (List.getLast?_eq_none_iff.mp hgl) hne
      | some x =>
        rw [hgl] at hlast
        simpa using hlast
    · rw [List.length_drop]
      omega
  · rw [if_neg hc]
    have hlen : (history ++ [dictSet entry "timestamp" now]).length
        = history.length + 1 := by simp
    refine ⟨by omega, List.getLast?_concat _, List.suffix_refl _, by omega⟩

/-! ### Claim C9 -/

/-- C9 (implicit): `stop_tor` returns success in every world — whether or
not a managed process was running and whatever the service stop command
does — so the daemon-stop step can never contribute an error to
`stop()`'s aggregated result: `stop()`'s success flag is exactly the
proxy-stop success flag. -/
theorem C9_stop_tor_never_fails (w : World) :
    (stop_tor w).1.1 = true ∧ (stop_service w).1.1 = (stop_nginx w).1.1 := by
  refine ⟨stop_tor_always_succeeds w, ?_⟩
  rw [stop_service_fst, stop_tor_always_succeeds]
  cases hn : (stop_nginx w).1.1 <;> simp

/-! ### Claim C10 -/

/-- C10 (implicit): on every non-Termux system whose detected
distribution is neither debian nor arch, `create_nginx_config` never
succeeds: every early branch returns a failure, and the branch that
passes the config write reaches the site-enabling step where the
`sites_enabled` variable was never assigned, so the `NameError` is caught
and a failure result is returned. -/
theorem C10_create_nginx_never_succeeds (w : World) (dir : String) (portArg : Option Int)
    (h1 : w.sys.isTermux = false)
    (h2 : w.sys.distro ≠ some "debian")
    (h3 : w.sys.distro ≠ some "arch") :
    (create_nginx_config w dir portArg).1.1 = false := by
  have hwrite : ∀ (w3 : World) (pk : String),
      w3.sys = w.sys → (createNginxWrite w3 pk dir (portArg.getD w.config.nginx_port)).1.1 = false := by
    intro w3 pk hsys
    unfold createNginxWrite
    dsimp only
    rw [hsys]
    simp only [h1, Bool.false_eq_true, if_false, Bool.not_false, Bool.true_and, ite_false]
    split
    · rfl
    · simp [h2, h3]
  unfold create_nginx_config
  cases hpk : platformKeyOf w.sys true with
  | none => rfl
  | some pk =>
    dsimp only
    split
    · rfl
    · split
      · rfl
      · split
        · rfl
        · exact hwrite _ pk
            ((startFileWatcher_sys _).trans
              ((runPriv_snd_sys _ _).trans
                ((runPriv_snd_sys _ _).trans (runPriv_snd_sys _ _))))

/-- C10 witness: the theorem applied to a Red Hat world; the run fails
with the uncaught-variable error message. -/
theorem C10_create_nginx_witness :
    redhatWorld.sys.distro = some "redhat" ∧
    (create_nginx_config redhatWorld "/site" Option.none).1
      = (false, "Error: name \x27sites_enabled\x27 is not defined") ∧
    (create_nginx_config redhatWorld "/site" Option.none).1.1 = false :=
  ⟨rfl, rfl,
    C10_create_nginx_never_succeeds redhatWorld "/site" Option.none rfl
      (by decide) (by decide)⟩

end OnionHoster
